import Mathlib

/-!
Shallow embedding of the WebsiteMonitor service (src/src/main.rs and
src/src/config.rs).

The program probes a configured list of URLs over HTTP, renders the
per-URL results into a text report, mails the report, and persists an
operational state record after each mutation.  Network, clock, mail and
disk effects are modelled by explicit oracle values threaded through the
definitions; every control-flow branch of the Rust source is mirrored by
a branch here.
-/

/-- The `Errors` variants of `dusa_collection_utils` used by this program. -/
inductive Errors where
  | InvalidFile
  | GeneralError
deriving DecidableEq, Repr

/-- An entry of the persisted error log (`ErrorArrayItem`). -/
structure ErrorArrayItem where
  err_type : Errors
  err_mesg : String
deriving DecidableEq, Repr

/-- Constructor mirroring `ErrorArrayItem::new(kind, message)`. -/
def ErrorArrayItem.new (t : Errors) (m : String) : ErrorArrayItem :=
  { err_type := t, err_mesg := m }

/-- The fields of `artisan_middleware::config::AppConfig` this program reads
or writes: `get_config` overwrites `app_name`, `version`, `database` and
`aggregator`, and `configure_logging` reads/writes `debug_mode`. -/
structure AppConfig where
  app_name : String
  version : String
  debug_mode : Bool
  database : Option String
  aggregator : Option String
deriving DecidableEq, Repr

/-- `HealthCheckResult` of src/src/main.rs lines 168-175.  The Rust
timings are `u128` milliseconds, embedded as `Nat`. -/
structure HealthCheckResult where
  status : String
  dns_time_ms : Option Nat
  response_time_ms : Option Nat
  body_time_ms : Option Nat
  error : Option String
deriving DecidableEq, Repr

/-- Oracle for one call of `check_website_health`: which of the fallible
steps of the probe fails first, with the measured timings of the steps
that did run.  The four constructors are the four leaves of the Rust
match tree (lines 221-284): client build failure, request send failure,
body read failure, full success. -/
inductive ProbeOutcome where
  | clientBuildErr (msg : String)
  | sendErr (msg : String)
  | bodyErr (dns resp : Nat) (msg : String)
  | ok (dns resp body : Nat)
deriving DecidableEq, Repr

/-- `check_website_health` (src/src/main.rs lines 221-284), with the
effectful steps replaced by the probe-outcome oracle.  Each branch builds
the same `HealthCheckResult` literal as the corresponding Rust arm. -/
def check_website_health : ProbeOutcome → HealthCheckResult
  | .clientBuildErr e =>
      { status := "DOWN", dns_time_ms := none, response_time_ms := none,
        body_time_ms := none, error := some e }
  | .sendErr e =>
      { status := "DOWN", dns_time_ms := none, response_time_ms := none,
        body_time_ms := none, error := some e }
  | .bodyErr dns resp e =>
      { status := "DOWN", dns_time_ms := some dns, response_time_ms := some resp,
        body_time_ms := none, error := some e }
  | .ok dns resp body =>
      { status := "UP", dns_time_ms := some dns, response_time_ms := some resp,
        body_time_ms := some body, error := none }

/-- The result mapping of one health cycle: `HashMap<String, HealthCheckResult>`
embedded as an association list with unique keys maintained by `mapInsert`. -/
abbrev HealthMap := List (String × HealthCheckResult)

/-- Whether the mapping already has an entry for key `k`. -/
def keyMem (m : HealthMap) (k : String) : Bool :=
  m.any (fun p => decide (p.1 = k))

/-- `HashMap::insert`: replace the value at an existing key, otherwise
append a new entry. -/
def mapInsert (m : HealthMap) (k : String) (v : HealthCheckResult) : HealthMap :=
  if keyMem m k then m.map (fun p => if p.1 = k then (k, v) else p)
  else m ++ [(k, v)]

/-- `run_health_checks` (src/src/main.rs lines 156-166): probe each URL in
list order and insert the result keyed by the URL.  `net` is the network
oracle; the inter-probe 500 ns sleep has no effect on the mapping. -/
def run_health_checks (urls : List String) (net : String → ProbeOutcome) : HealthMap :=
  urls.foldl (fun m url => mapInsert m url (check_website_health (net url))) []

/-- One step of the `generate_report` loop body (lines 182-209): append the
entry text for one `(url, result)` pair to the report accumulator and bump
`total_up` or `total_down`. -/
def report_step (acc : String × Nat × Nat) (p : String × HealthCheckResult) :
    String × Nat × Nat :=
  let entry := acc.1 ++ "URL: " ++ p.1 ++ "\n" ++ "  Status: " ++ p.2.status ++ "\n"
  if p.2.status = "UP" then
    (entry ++ "  DNS & Request Time: " ++ toString (p.2.dns_time_ms.getD 0) ++ " ms\n"
         ++ "  Total Response Time: " ++ toString (p.2.response_time_ms.getD 0) ++ " ms\n"
         ++ "  Body Read Time: " ++ toString (p.2.body_time_ms.getD 0) ++ " ms\n"
         ++ "\n",
     acc.2.1 + 1, acc.2.2)
  else
    (entry ++ "  Error: " ++ p.2.error.getD "Unknown error" ++ "\n" ++ "\n",
     acc.2.1, acc.2.2 + 1)

/-- The loop of `generate_report` over all entries, starting from the report
header and zero counters. -/
def report_fold (results : HealthMap) : String × Nat × Nat :=
  results.foldl report_step ("Website Health Check Report:\n\n", 0, 0)

/-- The trailing summary block of the report (lines 211-216), rendering
total checked, total UP and total DOWN. -/
def summary_line (total up down : Nat) : String :=
  "\nSummary:\n  Total Websites Checked: " ++ toString total
    ++ "\n  Total UP: " ++ toString up
    ++ "\n  Total DOWN: " ++ toString down ++ "\n\n"

/-- `generate_report` (src/src/main.rs lines 177-219): the per-entry body
followed by the summary, whose total-checked figure is `results.len()`. -/
def generate_report (results : HealthMap) : String :=
  let r := report_fold results
  r.1 ++ summary_line results.length r.2.1 r.2.2

/-- The persisted `AppState` of `artisan_middleware::state_persistence`:
the fields this program constructs in `get_initial_state` and mutates in
`main`, `configure_logging` and `update_state`.  Timestamps are `Nat`. -/
structure AppState where
  data : String
  last_updated : Nat
  event_counter : Nat
  is_active : Bool
  error_log : List ErrorArrayItem
  config : AppConfig
deriving DecidableEq, Repr

/-- The in-memory state together with the last successfully persisted
state (`none` when no valid state file exists on disk). -/
structure World where
  state : AppState
  disk : Option AppState
deriving DecidableEq, Repr

/-- `get_initial_state` (src/src/main.rs lines 118-127): a fresh inactive
state stamped with the current time. -/
def get_initial_state (config : AppConfig) (now : Nat) : AppState :=
  { data := "", last_updated := now, event_counter := 0, is_active := false,
    error_log := [], config := config }

/-- `update_state` (src/src/main.rs lines 130-140): refresh `last_updated`,
attempt `save_state`, and on failure clear `is_active` and append the save
error to `error_log`.  `saveErr` is the persistence oracle: `none` means the
save succeeded (the refreshed state reaches disk), `some msg` means it
failed with message `msg`. -/
def update_state (w : World) (now : Nat) (saveErr : Option String) : World :=
  let st := { w.state with last_updated := now }
  match saveErr with
  | none => { state := st, disk := some st }
  | some msg =>
      { state := { st with
                   is_active := false
                   error_log := st.error_log ++ [ErrorArrayItem.new Errors.GeneralError msg] },
        disk := w.disk }

/-- `load_initial_state` (src/src/main.rs lines 93-115): reuse the loaded
state when the file reads, otherwise create a fresh state and try to save
it; a failed save of the fresh state is only logged, never recorded. -/
def load_initial_state (config : AppConfig) (loaded : Option AppState)
    (saveOk : Bool) (now : Nat) : World :=
  match loaded with
  | some st => { state := st, disk := some st }
  | none =>
      let st := get_initial_state config now
      { state := st, disk := if saveOk then some st else none }

/-- `configure_logging` (src/src/main.rs lines 143-152): copy the debug
flag into the state's embedded config and persist via `update_state` (the
global log level itself is outside the state model). -/
def configure_logging (config : AppConfig) (w : World) (now : Nat)
    (saveErr : Option String) : World :=
  let w := { w with state := { w.state with
               config := { w.state.config with debug_mode := config.debug_mode } } }
  update_state w now saveErr

/-- The package-name literal `env!("CARGO_PKG_NAME")` bakes in. -/
def cargo_pkg_name : String := "websitemonitor"

/-- The package-version literal `env!("CARGO_PKG_VERSION")` bakes in. -/
def cargo_pkg_version : String := "1.0.0"

/-- `get_config` (src/src/config.rs lines 36-49): on a successful
`AppConfig::new()` (oracle `some c`) it overwrites the name, version,
database and aggregator fields; on failure (`none`) the Rust code calls
`std::process::exit(0)` after logging, touching no state, embedded as the
`none` result. -/
def get_config (loaded : Option AppConfig) : Option AppConfig :=
  match loaded with
  | some c => some { c with
                     app_name := cargo_pkg_name
                     version := cargo_pkg_version
                     database := none
                     aggregator := none }
  | none => none

/-- `AppSpecificConfig` of src/src/config.rs. -/
structure AppSpecificConfig where
  interval_seconds : Nat
deriving DecidableEq, Repr

/-- `WebsiteConfig` of src/src/config.rs. -/
structure WebsiteConfig where
  urls : List String
deriving DecidableEq, Repr

/-- `Settings` of src/src/config.rs. -/
structure Settings where
  app : AppSpecificConfig
  websites : WebsiteConfig
deriving DecidableEq, Repr

/-- The `Email` notification payload (`subject`, `body`). -/
structure Email where
  subject : String
  body : String
deriving DecidableEq, Repr

/-- Oracle for the effects of the startup phase of `main` together with
`get_config` and `load_initial_state`:  the raw `AppConfig::new()` result,
the `load_state` result, the save of a freshly created state, the
`load_settings` result, and the save results of the two `update_state`
calls made before the loop. -/
structure StartupOracle where
  configLoad : Option AppConfig
  loadedState : Option AppState
  initSaveOk : Bool
  settingsLoad : Except String Settings
  saveLogging : Option String
  saveActive : Option String
  time : Nat

/-- How the startup phase of `main` ends.  `exitBeforeState` is the
`std::process::exit(0)` inside `get_config`, reached before any state
exists; `exitWithState` is the early `return` from `main` on a settings
parse failure, carrying the in-memory/disk state at exit; `ready` enters
the run loop. -/
inductive StartupResult where
  | exitBeforeState
  | exitWithState (w : World)
  | ready (w : World) (s : Settings)
deriving DecidableEq, Repr

/-- The startup phase of `main` (src/src/main.rs lines 19-55): load config
(fatal exit inside `get_config` on failure), load or create the state,
load settings (on failure push an `InvalidFile` entry and return without
saving), configure logging, then mark the state active and persist. -/
def main_startup (o : StartupOracle) : StartupResult :=
  match get_config o.configLoad with
  | none => .exitBeforeState
  | some config =>
    let w := load_initial_state config o.loadedState o.initSaveOk o.time
    match o.settingsLoad with
    | .error e =>
        .exitWithState { w with state := { w.state with
          error_log := w.state.error_log
            ++ [ErrorArrayItem.new Errors.InvalidFile e] } }
    | .ok settings =>
        let w := configure_logging config w o.time o.saveLogging
        let w := { w with state := { w.state with
                     is_active := true, data := "Website Monitor Initialized" } }
        let w := update_state w o.time o.saveActive
        .ready w settings

/-- Oracle for the effects of one `loop` iteration of `main` (src/src/main.rs
lines 57-89): the network behaviour of every probe, the
`EmailSecure::new` result, the `secure_mail.send()` result, the save
results of the up-to-two `update_state` calls that an iteration can make
on its two error paths and of the one it always makes after the counter
increment, and the timestamp of the iteration. -/
structure CycleOracle where
  net : String → ProbeOutcome
  encrypt : Option ErrorArrayItem
  send : Option ErrorArrayItem
  saveOnEncryptFail : Option String
  saveOnSendFail : Option String
  saveOnCycle : Option String
  time : Nat

/-- One iteration of the `loop` in `main` (src/src/main.rs lines 57-89):
run the health checks, render the report into the notification email, and
handle the two notification-failure paths.  The returned `Bool` is `true`
when the loop continues to the next iteration and `false` for the `return`
on an encryption failure. -/
def run_iteration (w : World) (urls : List String) (o : CycleOracle) : World × Bool :=
  let results := run_health_checks urls o.net
  let report := generate_report results
  let _email : Email := { subject := "Website Monitor Report", body := report }
  match o.encrypt with
  | some e =>
      let w := { w with state := { w.state with error_log := w.state.error_log ++ [e] } }
      let w := update_state w o.time o.saveOnEncryptFail
      (w, false)
  | none =>
      let w := match o.send with
        | some e =>
            let w := { w with state := { w.state with
                         error_log := w.state.error_log ++ [e] } }
            update_state w o.time o.saveOnSendFail
        | none => w
      let w := { w with state := { w.state with
                   event_counter := w.state.event_counter + 1 } }
      let w := update_state w o.time o.saveOnCycle
      (w, true)

/-- The run loop of `main` driven by a finite list of per-iteration
oracles: iterate until the oracle list is spent or an iteration makes the
process return. -/
def run_loop (w : World) (urls : List String) : List CycleOracle → World
  | [] => w
  | o :: os =>
      let r := run_iteration w urls o
      if r.2 then run_loop r.1 urls os else r.1

theorem report_step_sum (acc : String × Nat × Nat) (p : String × HealthCheckResult) :
    (report_step acc p).2.1 + (report_step acc p).2.2 = acc.2.1 + acc.2.2 + 1 := by
  by_cases h : p.2.status = "UP" <;> simp [report_step, h] <;> omega

theorem report_fold_go_sum (l : HealthMap) :
    ∀ acc : String × Nat × Nat,
      (l.foldl report_step acc).2.1 + (l.foldl report_step acc).2.2
        = acc.2.1 + acc.2.2 + l.length := by
  induction l with
  | nil => intro acc; simp
  | cons p ps ih =>
      intro acc
      simp only [List.foldl_cons, List.length_cons]
      rw [ih]
      have := report_step_sum acc p
      omega

theorem report_fold_go_up (l : HealthMap) :
    ∀ acc : String × Nat × Nat,
      (l.foldl report_step acc).2.1
        = acc.2.1 + l.countP (fun p => decide (p.2.status = "UP")) := by
  induction l with
  | nil => intro acc; simp
  | cons p ps ih =>
      intro acc
      simp only [List.foldl_cons, List.countP_cons]
      rw [ih]
      by_cases h : p.2.status = "UP" <;> simp [report_step, h] <;> omega

theorem report_fold_go_down (l : HealthMap) :
    ∀ acc : String × Nat × Nat,
      (l.foldl report_step acc).2.2
        = acc.2.2 + l.countP (fun p => !decide (p.2.status = "UP")) := by
  induction l with
  | nil => intro acc; simp
  | cons p ps ih =>
      intro acc
      simp only [List.foldl_cons, List.countP_cons]
      rw [ih]
      by_cases h : p.2.status = "UP" <;> simp [report_step, h] <;> omega

/-- C2: for every results mapping, the report generated by
`generate_report` counts each entry exactly once — as UP when its status
string is "UP" and as DOWN otherwise — so the reported `total_up` plus
`total_down` equals the mapping's size, and the emitted text is the
per-entry body followed by the summary block whose total-checked figure
is the mapping's size and whose UP/DOWN figures are those counts. -/
theorem generate_report_summary_counts (results : HealthMap) :
    (report_fold results).2.1 = results.countP (fun p => decide (p.2.status = "UP")) ∧
    (report_fold results).2.2 = results.countP (fun p => !decide (p.2.status = "UP")) ∧
    (report_fold results).2.1 + (report_fold results).2.2 = results.length ∧
    generate_report results
      = (report_fold results).1
          ++ summary_line results.length (report_fold results).2.1 (report_fold results).2.2 := by
  refine ⟨?_, ?_, ?_, rfl⟩
  · simpa using report_fold_go_up results ("Website Health Check Report:\n\n", 0, 0)
  · simpa using report_fold_go_down results ("Website Health Check Report:\n\n", 0, 0)
  · simpa using report_fold_go_sum results ("Website Health Check Report:\n\n", 0, 0)

theorem keyMem_append_single (m : HealthMap) (k u : String) (v : HealthCheckResult) :
    keyMem (m ++ [(k, v)]) u = (keyMem m u || decide (k = u)) := by
  simp [keyMem, List.any_append]

theorem mapInsert_fresh (m : HealthMap) (k : String) (v : HealthCheckResult)
    (h : keyMem m k = false) : mapInsert m k v = m ++ [(k, v)] := by
  simp [mapInsert, h]

theorem run_health_checks_go_length (urls : List String) (net : String → ProbeOutcome) :
    ∀ m : HealthMap, urls.Nodup → (∀ u ∈ urls, keyMem m u = false) →
      (urls.foldl (fun m url => mapInsert m url (check_website_health (net url))) m).length
        = m.length + urls.length := by
  induction urls with
  | nil => intro m _ _; simp
  | cons url rest ih =>
      intro m hnd hfresh
      simp only [List.foldl_cons, List.length_cons]
      rw [mapInsert_fresh m url _ (hfresh url (by simp))]
      rw [ih (m ++ [(url, check_website_health (net url))]) (List.Nodup.of_cons hnd) ?fresh]
      · simp only [List.length_append, List.length_singleton]
        omega
      case fresh =>
        intro u hu
        rw [keyMem_append_single]
        have h1 : keyMem m u = false := hfresh u (by simp [hu])
        have h2 : url ≠ u := by
          intro hc
          exact (List.nodup_cons.mp hnd).1 (hc ▸ hu)
        simp [h1, h2]

/-- C1 (amended): for every non-empty list of pairwise-distinct target
URLs, the mapping returned by `run_health_checks` has exactly as many
entries as the list has elements, and the `total_up` and `total_down`
counters of `generate_report`'s fold over that mapping sum to the list's
length.  (Without distinctness the HashMap collapses duplicate URLs.) -/
theorem run_health_checks_size_and_counts (urls : List String) (net : String → ProbeOutcome)
    (hne : urls ≠ []) (hnd : urls.Nodup) :
    (run_health_checks urls net).length = urls.length ∧
    (report_fold (run_health_checks urls net)).2.1
      + (report_fold (run_health_checks urls net)).2.2 = urls.length := by
  have hlen : (run_health_checks urls net).length = urls.length := by
    have h := run_health_checks_go_length urls net [] hnd (fun u _ => rfl)
    simpa [run_health_checks] using h
  refine ⟨hlen, ?_⟩
  have h := report_fold_go_sum (run_health_checks urls net)
    ("Website Health Check Report:\n\n", 0, 0)
  simpa [report_fold, hlen] using h

/-- The network oracle of the C1 witness: the first URL resolves, the
second fails at connect time. -/
def c1Net : String → ProbeOutcome := fun u =>
  if u = "https://a.example" then ProbeOutcome.ok 1 2 3
  else ProbeOutcome.clientBuildErr "dns failure"

/-- Witness for the amended C1 at a concrete two-element target list. -/
theorem run_health_checks_size_and_counts_witness :
    (["https://a.example", "https://b.example"] ≠ ([] : List String)) ∧
    (["https://a.example", "https://b.example"] : List String).Nodup ∧
    ((run_health_checks ["https://a.example", "https://b.example"] c1Net).length = 2 ∧
     (report_fold (run_health_checks ["https://a.example", "https://b.example"] c1Net)).2.1
       + (report_fold (run_health_checks ["https://a.example", "https://b.example"] c1Net)).2.2
       = 2) :=
  ⟨by decide, by decide,
   run_health_checks_size_and_counts ["https://a.example", "https://b.example"] c1Net
     (by decide) (by decide)⟩

/-- Counterexample to C1 as stated: with the duplicate target list
["https://a.example", "https://a.example"] the HashMap keeps a single
entry, so the mapping's size and the summed counters are 1, not the
list's length 2. -/
theorem run_health_checks_duplicate_urls_counterexample :
    ¬ ((run_health_checks ["https://a.example", "https://a.example"]
          (fun _ => ProbeOutcome.ok 1 2 3)).length = 2 ∧
       (report_fold (run_health_checks ["https://a.example", "https://a.example"]
          (fun _ => ProbeOutcome.ok 1 2 3))).2.1
         + (report_fold (run_health_checks ["https://a.example", "https://a.example"]
             (fun _ => ProbeOutcome.ok 1 2 3))).2.2 = 2) := by
  decide

/-- Counterexample to C3 as stated: when the HTTP request succeeds but the
body read fails, `check_website_health` returns status DOWN with the
connect/dns and total-response timings still populated, so staged timings
are not present only on UP. -/
theorem probe_down_with_timings_counterexample :
    (check_website_health (ProbeOutcome.bodyErr 5 9 "body read failed")).status = "DOWN" ∧
    (check_website_health (ProbeOutcome.bodyErr 5 9 "body read failed")).dns_time_ms = some 5 ∧
    (check_website_health (ProbeOutcome.bodyErr 5 9 "body read failed")).response_time_ms
      = some 9 := by
  decide

/-- C3 (amended): for every probe outcome, an error message is present
exactly when the status is DOWN, the body-read timing is present exactly
when the status is UP, a status of UP comes with all three timings, and
the connect/dns timing is present exactly when the total-response timing
is — so on a body-read failure the first two timings survive into a DOWN
result. -/
theorem probe_result_field_presence (o : ProbeOutcome) :
    ((check_website_health o).error.isSome ↔ (check_website_health o).status = "DOWN") ∧
    ((check_website_health o).body_time_ms.isSome ↔ (check_website_health o).status = "UP") ∧
    ((check_website_health o).status = "UP" →
      (check_website_health o).dns_time_ms.isSome
        ∧ (check_website_health o).response_time_ms.isSome) ∧
    ((check_website_health o).dns_time_ms.isSome
       ↔ (check_website_health o).response_time_ms.isSome) := by
  cases o <;> simp [check_website_health]

/-- C4: for every URL whose HTTP request itself fails — building the
client fails, or sending the request fails with a connect error, timeout
or transport error — `check_website_health` returns status DOWN, all
three staged timings absent, and the error message set to the low-level
failure description. -/
theorem check_website_health_request_failure (msg : String) :
    check_website_health (ProbeOutcome.clientBuildErr msg)
      = { status := "DOWN", dns_time_ms := none, response_time_ms := none,
          body_time_ms := none, error := some msg } ∧
    check_website_health (ProbeOutcome.sendErr msg)
      = { status := "DOWN", dns_time_ms := none, response_time_ms := none,
          body_time_ms := none, error := some msg } :=
  ⟨rfl, rfl⟩

/-- C10: every result of `check_website_health` is well-formed: the status
string is exactly "UP" or exactly "DOWN"; the error is absent exactly when
the status is UP; all three timings are present exactly when the status is
UP; and the body-read timing is present only when the connect/dns and
total-response timings are. -/
theorem check_website_health_well_formed (o : ProbeOutcome) :
    ((check_website_health o).status = "UP" ∨ (check_website_health o).status = "DOWN") ∧
    ((check_website_health o).error = none ↔ (check_website_health o).status = "UP") ∧
    (((check_website_health o).dns_time_ms.isSome
        ∧ (check_website_health o).response_time_ms.isSome
        ∧ (check_website_health o).body_time_ms.isSome)
      ↔ (check_website_health o).status = "UP") ∧
    ((check_website_health o).body_time_ms.isSome →
      (check_website_health o).dns_time_ms.isSome
        ∧ (check_website_health o).response_time_ms.isSome) := by
  cases o <;> simp [check_website_health]

/-- C6: whenever `save_state` fails inside `update_state`, the in-memory
state afterwards has `is_active` false, `error_log` grown by exactly the
one save-failure entry, and `last_updated` refreshed to the current time;
whenever `save_state` succeeds, `update_state` leaves `is_active` and
`error_log` unchanged (and still refreshes `last_updated`). -/
theorem update_state_save_outcomes (w : World) (now : Nat) (msg : String) :
    ((update_state w now (some msg)).state.is_active = false ∧
     (update_state w now (some msg)).state.error_log
       = w.state.error_log ++ [ErrorArrayItem.new Errors.GeneralError msg] ∧
     (update_state w now (some msg)).state.last_updated = now) ∧
    ((update_state w now none).state.is_active = w.state.is_active ∧
     (update_state w now none).state.error_log = w.state.error_log ∧
     (update_state w now none).state.last_updated = now) :=
  ⟨⟨rfl, rfl, rfl⟩, ⟨rfl, rfl, rfl⟩⟩

/-- C5: in each iteration of the run loop, an encryption failure of the
report email appends exactly that one error to `error_log`, persists the
state (the iteration's save succeeding), and makes the process return;
a send failure appends that one error and persists, but the iteration
continues and `event_counter` is still incremented for the cycle. -/
theorem notification_failure_handling (w : World) (urls : List String)
    (o : CycleOracle) (e : ErrorArrayItem) :
    (o.encrypt = some e → o.saveOnEncryptFail = none →
      (run_iteration w urls o).2 = false ∧
      (run_iteration w urls o).1.state.error_log = w.state.error_log ++ [e] ∧
      (run_iteration w urls o).1.disk = some (run_iteration w urls o).1.state) ∧
    (o.encrypt = none → o.send = some e → o.saveOnSendFail = none → o.saveOnCycle = none →
      (run_iteration w urls o).2 = true ∧
      (run_iteration w urls o).1.state.error_log = w.state.error_log ++ [e] ∧
      (run_iteration w urls o).1.state.event_counter = w.state.event_counter + 1 ∧
      (run_iteration w urls o).1.disk = some (run_iteration w urls o).1.state) := by
  constructor
  · intro he hs
    simp [run_iteration, he, hs, update_state]
  · intro he hsend hs1 hs2
    simp [run_iteration, he, hsend, hs1, hs2, update_state]

/-- The base configuration of the concrete witnesses. -/
def sampleConfig : AppConfig :=
  { app_name := "websitemonitor", version := "1.0.0", debug_mode := false,
    database := none, aggregator := none }

/-- A fresh operational state used by the concrete witnesses. -/
def sampleState : AppState := get_initial_state sampleConfig 0

/-- A world whose in-memory state is persisted, used by the witnesses. -/
def sampleWorld : World := { state := sampleState, disk := some sampleState }

/-- The loaded settings used by the concrete witnesses. -/
def sampleSettings : Settings :=
  { app := { interval_seconds := 30 }, websites := { urls := ["https://a.example"] } }

/-- Iteration oracle of the C5 witness: report encryption fails, saves
succeed. -/
def c5Oracle : CycleOracle :=
  { net := fun _ => ProbeOutcome.ok 1 2 3
    encrypt := some (ErrorArrayItem.new Errors.GeneralError "pgp encryption failed")
    send := none
    saveOnEncryptFail := none
    saveOnSendFail := none
    saveOnCycle := none
    time := 7 }

/-- Witness for C5: a concrete iteration whose report encryption fails
records exactly that error, persists, and stops the loop. -/
theorem notification_failure_handling_witness :
    (run_iteration sampleWorld ["https://a.example"] c5Oracle).2 = false ∧
    (run_iteration sampleWorld ["https://a.example"] c5Oracle).1.state.error_log
      = sampleWorld.state.error_log
          ++ [ErrorArrayItem.new Errors.GeneralError "pgp encryption failed"] ∧
    (run_iteration sampleWorld ["https://a.example"] c5Oracle).1.disk
      = some (run_iteration sampleWorld ["https://a.example"] c5Oracle).1.state :=
  (notification_failure_handling sampleWorld ["https://a.example"] c5Oracle
    (ErrorArrayItem.new Errors.GeneralError "pgp encryption failed")).1 rfl rfl

theorem run_iteration_encrypt_ok (w : World) (urls : List String) (o : CycleOracle)
    (he : o.encrypt = none) :
    (run_iteration w urls o).2 = true ∧
    (run_iteration w urls o).1.state.event_counter = w.state.event_counter + 1 := by
  cases hsend : o.send <;> cases hs1 : o.saveOnSendFail <;> cases hs2 : o.saveOnCycle <;>
    simp [run_iteration, he, hsend, hs1, hs2, update_state]

/-- C7: after any number of completed iterations of the run loop — every
iteration in which report encryption succeeded, whatever each probe
returned and whether or not the email send or the saves succeeded — the
in-memory `event_counter` equals its value at the start plus the number
of iterations. -/
theorem run_loop_event_counter (w : World) (urls : List String) (os : List CycleOracle)
    (h : ∀ o ∈ os, o.encrypt = none) :
    (run_loop w urls os).state.event_counter = w.state.event_counter + os.length := by
  induction os generalizing w with
  | nil => simp [run_loop]
  | cons o os ih =>
      have ho : o.encrypt = none := h o (by simp)
      have hstep := run_iteration_encrypt_ok w urls o ho
      simp only [run_loop, hstep.1, if_true, List.length_cons]
      rw [ih (run_iteration w urls o).1 (fun x hx => h x (by simp [hx]))]
      rw [hstep.2]
      omega

/-- First iteration oracle of the C7 witness: every probe fails at the
transport level, mail goes through. -/
def c7OracleA : CycleOracle :=
  { net := fun _ => ProbeOutcome.sendErr "connection refused"
    encrypt := none
    send := none
    saveOnEncryptFail := none
    saveOnSendFail := none
    saveOnCycle := none
    time := 1 }

/-- Second iteration oracle of the C7 witness: probes succeed but the
mail send fails. -/
def c7OracleB : CycleOracle :=
  { net := fun _ => ProbeOutcome.ok 1 2 3
    encrypt := none
    send := some (ErrorArrayItem.new Errors.GeneralError "smtp connection refused")
    saveOnEncryptFail := none
    saveOnSendFail := none
    saveOnCycle := none
    time := 2 }

/-- Witness for C7: two completed iterations — one with every probe DOWN,
one with a failing send — raise the counter by exactly two. -/
theorem run_loop_event_counter_witness :
    (∀ o ∈ [c7OracleA, c7OracleB], o.encrypt = none) ∧
    (run_loop sampleWorld ["https://a.example"] [c7OracleA, c7OracleB]).state.event_counter
      = sampleWorld.state.event_counter + 2 :=
  ⟨by decide, run_loop_event_counter sampleWorld ["https://a.example"]
    [c7OracleA, c7OracleB] (by decide)⟩

/-- The property C8 claims of a startup-fatal failure: the exit carries a
state whose error log has grown past the given baseline.  The
`exitBeforeState` exit carries no state at all, so nothing is recorded
on it. -/
def startup_error_recorded (baseline : Nat) : StartupResult → Prop
  | .exitBeforeState => False
  | .exitWithState w => baseline < w.state.error_log.length
  | .ready _ _ => True

/-- Startup oracle of the C8 counterexample: `AppConfig::new()` fails. -/
def c8Oracle : StartupOracle :=
  { configLoad := none
    loadedState := none
    initSaveOk := true
    settingsLoad := Except.ok sampleSettings
    saveLogging := none
    saveActive := none
    time := 0 }

/-- Counterexample to C8 as stated: a configuration load failure makes
`get_config` call std::process::exit(0) before any state exists, so that
startup-fatal failure is not recorded in any `error_log`. -/
theorem startup_config_failure_unrecorded_counterexample :
    main_startup c8Oracle = StartupResult.exitBeforeState ∧
    ¬ startup_error_recorded 0 (main_startup c8Oracle) :=
  ⟨rfl, fun h => h⟩

/-- C8 (amended): a settings parse failure is recorded as an `InvalidFile`
entry in `error_log` and the process exits without entering the run loop
via a non-panicking return from `main`; a configuration load failure,
however, exits inside `get_config` (exit code 0) before any state exists
and records nothing. -/
theorem startup_fatal_paths (c : AppConfig) (loaded : Option AppState) (b : Bool)
    (e : String) (sl sa : Option String) (t : Nat) :
    main_startup { configLoad := none, loadedState := loaded, initSaveOk := b,
                   settingsLoad := Except.error e, saveLogging := sl, saveActive := sa,
                   time := t }
      = StartupResult.exitBeforeState ∧
    main_startup { configLoad := some c, loadedState := loaded, initSaveOk := b,
                   settingsLoad := Except.error e, saveLogging := sl, saveActive := sa,
                   time := t }
      = StartupResult.exitWithState
          { state := { (load_initial_state ((get_config (some c)).getD c) loaded b t).state with
                       error_log :=
                         (load_initial_state ((get_config (some c)).getD c) loaded b t).state.error_log
                           ++ [ErrorArrayItem.new Errors.InvalidFile e] }
            disk := (load_initial_state ((get_config (some c)).getD c) loaded b t).disk } :=
  ⟨rfl, rfl⟩

/-- Executable check that a startup result leaves no un-persisted
in-memory mutation behind: every state it carries equals the state on
disk (the exit inside `get_config` carries no state). -/
def startup_fully_persisted : StartupResult → Bool
  | .exitBeforeState => true
  | .exitWithState w => decide (w.disk = some w.state)
  | .ready w _ => decide (w.disk = some w.state)

/-- Startup oracle of the C9 counterexample: everything on disk is intact
but `load_settings` fails to parse. -/
def c9Oracle : StartupOracle :=
  { configLoad := some sampleConfig
    loadedState := some sampleState
    initSaveOk := true
    settingsLoad := Except.error "missing field app"
    saveLogging := none
    saveActive := none
    time := 3 }

/-- Counterexample to C9 as stated: on a settings parse failure `main`
pushes an entry onto `error_log` and returns without any save, so that
mutation is left unpersisted — the in-memory state at exit differs from
the state on disk even though every attempted save succeeded. -/
theorem startup_unpersisted_mutation_counterexample :
    startup_fully_persisted (main_startup c9Oracle) = false := by
  decide

/-- C9 (amended): every state mutation except the one on the settings
parse-failure exit path is persisted in the same logical step: when the
attempted saves succeed, the startup that reaches the run loop hands over
a fully persisted world, and every loop iteration ends — on either its
normal or its failure path — with the in-memory state on disk; only the
settings-failure exit leaves its freshly pushed error entry unpersisted. -/
theorem mutations_persisted_when_saves_succeed (c : AppConfig) (loaded : Option AppState)
    (b : Bool) (s : Settings) (t : Nat) (w : World) (urls : List String) (o : CycleOracle)
    (h1 : o.saveOnEncryptFail = none) (h2 : o.saveOnSendFail = none)
    (h3 : o.saveOnCycle = none) :
    startup_fully_persisted
      (main_startup { configLoad := some c, loadedState := loaded, initSaveOk := b,
                      settingsLoad := Except.ok s, saveLogging := none, saveActive := none,
                      time := t }) = true ∧
    (run_iteration w urls o).1.disk = some (run_iteration w urls o).1.state := by
  constructor
  · simp [main_startup, get_config, configure_logging, update_state, startup_fully_persisted]
  · cases he : o.encrypt with
    | some e => simp [run_iteration, he, h1, update_state]
    | none => cases hsend : o.send <;> simp [run_iteration, he, hsend, h2, h3, update_state]

/-- Iteration oracle of the C9 witness: probes partially fail, the send
fails, all saves succeed. -/
def c9IterOracle : CycleOracle :=
  { net := fun _ => ProbeOutcome.bodyErr 1 2 "body read interrupted"
    encrypt := none
    send := some (ErrorArrayItem.new Errors.GeneralError "smtp down")
    saveOnEncryptFail := none
    saveOnSendFail := none
    saveOnCycle := none
    time := 5 }

/-- Witness for the amended C9 at a concrete startup oracle and a
concrete loop iteration. -/
theorem mutations_persisted_witness :
    startup_fully_persisted
      (main_startup { configLoad := some sampleConfig, loadedState := some sampleState,
                      initSaveOk := true, settingsLoad := Except.ok sampleSettings,
                      saveLogging := none, saveActive := none, time := 4 }) = true ∧
    (run_iteration sampleWorld ["https://a.example"] c9IterOracle).1.disk
      = some (run_iteration sampleWorld ["https://a.example"] c9IterOracle).1.state :=
  mutations_persisted_when_saves_succeed sampleConfig (some sampleState) true sampleSettings 4
    sampleWorld ["https://a.example"] c9IterOracle rfl rfl rfl
